import Mathlib

/-!
Shallow embedding of `src/components/MapComponent.jsx` (the map-interaction
component of the `ins-frontend-` repository) and proofs about its behaviour.

Conventions of the embedding:
* JavaScript numbers are modelled as `Rat` (the coordinates handled by the
  component are decimal literals and arithmetic on them; no claim below
  depends on binary floating-point artefacts).
* `x.toFixed(n)` is modelled by `toFixed x n`, producing the decimal string
  with `n` fractional digits.
* Possibly-absent JavaScript values (`undefined` fields, `null` state) are
  modelled as `Option`; JavaScript string truthiness (`""` is falsy) is
  modelled by `jsTruthy` / `jsOr`.
* Each event handler of the component becomes a pure function from the
  component state (plus the event payload) to the new component state;
  asynchronous requests that a handler fires are returned as data.
* The React `useEffect` that wires the map handlers has dependency array
  `[buildings, dispatch, handleReverseGeocode]`, so the `"click"` handler
  closes over the `routePoints` / `route` values of the render in which the
  map was created; this captured environment is the `CapturedRouteState`
  argument of `onMapClick`.
-/

/-- Rendering of the integer `n` (the value scaled by `10 ^ digits` and
rounded) as a decimal string with `digits` fractional digits. -/
def toFixedInt (n : Int) (digits : Nat) : String :=
  let sign : String := if n < 0 then "-" else ""
  let m : Nat := n.natAbs
  let ip : Nat := m / 10 ^ digits
  let fp : Nat := m % 10 ^ digits
  if digits = 0 then
    sign ++ toString ip
  else
    let fs : String := toString fp
    let fs : String := String.mk (List.replicate (digits - fs.length) '0') ++ fs
    sign ++ toString ip ++ "." ++ fs

/-- Decimal rendering of a rational with `digits` fractional digits,
modelling JavaScript `Number.prototype.toFixed`: scale by `10 ^ digits`,
round to the nearest integer, and print with the decimal point restored. -/
def toFixed (x : Rat) (digits : Nat) : String :=
  toFixedInt (x * (10 : Rat) ^ digits + 1 / 2).floor digits

/-- JavaScript `String.prototype.trim`: strip whitespace from both ends. -/
def jsTrim (s : String) : String :=
  String.mk ((s.data.dropWhile Char.isWhitespace).reverse.dropWhile Char.isWhitespace).reverse

/-- JavaScript truthiness of a possibly-absent string (`undefined` and `""`
are falsy). -/
def jsTruthy : Option String → Bool
  | some s => s ≠ ""
  | none => false

/-- JavaScript `a || b` on a possibly-absent string `a` with default `b`. -/
def jsOr (a : Option String) (b : String) : String :=
  match a with
  | some s => if s = "" then b else s
  | none => b

-- --- CONFIGURATION CONSTANTS (from the top of MapComponent.jsx) ---

def ROUTE_POINT_SOURCE_ID : String := "route-point-source"

def ROUTE_POINT_LAYER_ID : String := "route-point-layer"

def BOX_SOURCE_ID : String := "box-polygon-source"

def BOX_LAYER_ID : String := "box-polygon-layer"

def CLICKED_POINTS_SOURCE_ID : String := "clicked-points-source"

def COLLECTED_COORDS_SOURCE_ID : String := "collected-coords-source"

def COLLECTED_COORDS_LAYER_ID : String := "collected-coords-layer"

def MAX_LOGGED_CLICKS : Nat := 1

def MAX_COLLECTED_POINTS : Nat := 155

def CATEGORY_OPTIONS : List String :=
  ["All", "Building", "Cabin", "Security Pillar", "Gate", "Other", "main"]

def BUILDING_LAYER_ID : String := "buildings-3d"

def PHOTO_MARKER_LAYER_ID : String := "building-marker"

def COLOR_GOLD : String := "#d4af37"

def COLOR_PURPLE : String := "#9400d3"

-- --- DATA MODEL ---

/-- GeoJSON geometry as used by the component: building features are
polygons (a list of rings of `[lng, lat]` pairs), marker features are points
(a `[lng, lat, ...]` coordinate list). -/
inductive Geometry where
  | polygon (coordinates : List (List (Rat × Rat)))
  | point (coordinates : List Rat)
deriving DecidableEq, Repr

/-- The `viewpoint` property bag (`viewpoint.coordinates` may be absent). -/
structure ViewpointProp where
  coordinates : Option (List Rat)
deriving DecidableEq, Repr

/-- The feature `properties` bag read by the component. -/
structure Properties where
  name : Option String := none
  id : Option String := none
  imageURL : Option String := none
  category : Option String := none
  viewpoint : Option ViewpointProp := none
deriving DecidableEq, Repr

structure Feature where
  geometry : Geometry
  properties : Properties
deriving DecidableEq, Repr

structure FeatureCollection where
  features : List Feature
deriving DecidableEq, Repr

/-- A logged click entry (`{lng, lat, button}`, coordinates formatted with
`toFixed(4)`). -/
structure LoggedClick where
  lng : String
  lat : String
  button : String
deriving DecidableEq, Repr

/-- A collected coordinate entry (`{lng, lat}` formatted with `toFixed(6)`). -/
structure CollectedPoint where
  lng : String
  lat : String
deriving DecidableEq, Repr

/-- The reverse-geocode result record. -/
structure ReverseGeocodeInfo where
  pincode : String
  latitude : String
  longitude : String
  fullAddress : String
deriving DecidableEq, Repr

/-- The selected feature (`setSelectedFeature` payload). -/
structure SelectedFeature where
  name : Option String
  id : Option String
  imageURL : Option String
  category : Option String
  centerPoint : Rat × Rat
deriving DecidableEq, Repr

/-- A forward-geocoding suggestion (`{name, lng, lat, zoom}`). -/
structure Suggestion where
  name : String
  lng : Rat
  lat : Rat
  zoom : Nat
deriving DecidableEq, Repr

/-- Opaque stand-in for the GeoJSON route returned by the routing backend;
no handler inspects its contents. -/
structure RouteData where
deriving DecidableEq, Repr

/-- A route endpoint (`{lng, lat}`). -/
structure RoutePoint where
  lng : Rat
  lat : Rat
deriving DecidableEq, Repr

/-- The transient component state: the `useState` hooks of `MapComponent`
together with the redux `route` value. -/
structure AppState where
  searchQuery : String
  searchSuggestions : List Suggestion
  searchError : Option String
  reverseGeocodeInfo : Option ReverseGeocodeInfo
  isReverseGeocoding : Bool
  selectedFeature : Option SelectedFeature
  view360Url : Option String
  activeCategory : String
  isCoordinateFormOpen : Bool
  routePoints : List RoutePoint
  loggedClicks : List LoggedClick
  collectedCoordinates : List CollectedPoint
  route : Option RouteData
deriving DecidableEq, Repr

/-- The initial values of the state hooks (and `route = null`). -/
def initialState : AppState :=
  { searchQuery := ""
    searchSuggestions := []
    searchError := none
    reverseGeocodeInfo := none
    isReverseGeocoding := false
    selectedFeature := none
    view360Url := none
    activeCategory := "All"
    isCoordinateFormOpen := false
    routePoints := []
    loggedClicks := []
    collectedCoordinates := []
    route := none }

-- --- HANDLER 1: MOUSE DOWN (logging & right-click coordinate collection) ---

/-- A raw mouse event: its map coordinates and `originalEvent.button`. -/
structure MouseEvent where
  lng : Rat
  lat : Rat
  button : Nat
deriving DecidableEq, Repr

/-- Button classification of the mousedown handler
(`button === 0 ? "LEFT" : (button === 2 ? "RIGHT" : "OTHER")`). -/
def buttonTypeOf (b : Nat) : String :=
  if b = 0 then "LEFT" else if b = 2 then "RIGHT" else "OTHER"

/-- The logged-click record built by the mousedown handler. -/
def loggedClickOf (e : MouseEvent) : LoggedClick :=
  { lng := toFixed e.lng 4, lat := toFixed e.lat 4, button := buttonTypeOf e.button }

/-- The `map.current.on("mousedown", ...)` handler: always log the click
(keeping at most `MAX_LOGGED_CLICKS` entries); on the secondary button,
additionally append to the collection buffer unless it is full, and clear
the route and route points. -/
def mousedownStep (st : AppState) (e : MouseEvent) : AppState :=
  let newClick := loggedClickOf e
  let st := { st with loggedClicks := newClick :: st.loggedClicks.take (MAX_LOGGED_CLICKS - 1) }
  if e.button = 2 then
    let cc :=
      if st.collectedCoordinates.length ≥ MAX_COLLECTED_POINTS then
        st.collectedCoordinates
      else
        st.collectedCoordinates ++ [{ lng := toFixed e.lng 6, lat := toFixed e.lat 6 }]
    { st with collectedCoordinates := cc, routePoints := [], route := none }
  else
    st

-- --- HANDLER 2: LEFT-CLICK (reverse geocoding or clearing) ---

/-- A map click event: its coordinates, `originalEvent.button`, and the layer
ids of the rendered features under the click point (the result of
`queryRenderedFeatures(e.point)`). -/
structure ClickEvent where
  lng : Rat
  lat : Rat
  button : Nat
  renderedLayerIds : List String
deriving DecidableEq, Repr

/-- The feature hit-test of the click handler
(`features.some(f => f.layer.id === ...)`). -/
def isFeatureClicked (e : ClickEvent) : Bool :=
  e.renderedLayerIds.any fun id =>
    id = BUILDING_LAYER_ID ∨ id = "viewpoint-markers" ∨ id = PHOTO_MARKER_LAYER_ID

/-- The `routePoints` and `route` values closed over by the `"click"`
handler: the values of the render in which the map-initialization effect
ran (the dependency array of the effect omits both, so they are never
refreshed). -/
structure CapturedRouteState where
  routePoints : List RoutePoint
  route : Option RouteData
deriving DecidableEq, Repr

/-- The `map.current.on("click", ...)` handler. Returns the new state and
the coordinate of the reverse-geocode request it fires (if any); firing the
request also sets `isReverseGeocoding` (the synchronous prefix of
`handleReverseGeocode`). The route-clearing guard reads `cap`, the stale
captured `routePoints` / `route`, not the current state. -/
def onMapClick (cap : CapturedRouteState) (st : AppState) (e : ClickEvent) :
    AppState × Option (Rat × Rat) :=
  if e.button ≠ 0 then
    (st, none)
  else if isFeatureClicked e then
    ({ st with reverseGeocodeInfo := none }, none)
  else
    let st :=
      if cap.routePoints.length > 0 ∨ cap.route.isSome then
        { st with routePoints := [], route := none }
      else
        st
    let st := { st with selectedFeature := none, view360Url := none, searchSuggestions := [] }
    ({ st with isReverseGeocoding := true }, some (e.lng, e.lat))

-- --- HANDLER 3: CONTEXT MENU (right-click marker promotion to 360 view) ---

/-- The `map.current.on("contextmenu", ...)` handler. `features` is the
result of `queryRenderedFeatures(e.point, {layers: ["viewpoint-markers",
PHOTO_MARKER_LAYER_ID]})`; `eLng`/`eLat` are the event coordinates. If the
first feature carries a truthy `imageURL`, it is promoted to the selected
feature, the 360 viewer is opened, and the coordinate-collection state is
cleared. The reverse-geocode result is not touched. -/
def onContextMenu (st : AppState) (features : List Feature) (eLng eLat : Rat) : AppState :=
  match features with
  | [] => st
  | f :: _ =>
    if jsTruthy f.properties.imageURL then
      { st with
        selectedFeature := some
          { name := f.properties.name
            id := f.properties.id
            imageURL := f.properties.imageURL
            category := f.properties.category
            centerPoint := (eLng, eLat) }
        view360Url := f.properties.imageURL
        collectedCoordinates := []
        isCoordinateFormOpen := false }
    else
      st

-- --- FEATURE CLICK HANDLERS (registered inside the "load" handler) ---

/-- First ring of a polygon geometry (`feature.geometry.coordinates[0]`);
building-layer features carry polygon geometry. -/
def polygonFirstRing : Geometry → List (Rat × Rat)
  | .polygon rings => rings.headD []
  | .point _ => []

/-- Ring centroid as computed by the component:
`coords.reduce((sum, p) => sum + p[i], 0) / coords.length`. (For an empty
ring JavaScript would produce `NaN`; in `Rat` the division yields `0`.) -/
def ringCentroid (coords : List (Rat × Rat)) : Rat × Rat :=
  (coords.foldl (fun sum p => sum + p.1) 0 / (coords.length : Rat),
   coords.foldl (fun sum p => sum + p.2) 0 / (coords.length : Rat))

/-- The `map.current.on("click", BUILDING_LAYER_ID, ...)` handler applied to
the first hit feature: select the building (centroid as center point) and
clear the reverse-geocode result. -/
def onBuildingClick (st : AppState) (f : Feature) : AppState :=
  let coords := polygonFirstRing f.geometry
  let center := ringCentroid coords
  { st with
    selectedFeature := some
      { name := f.properties.name
        id := f.properties.id
        imageURL := f.properties.imageURL
        category := f.properties.category
        centerPoint := center }
    reverseGeocodeInfo := none }

/-- The `map.current.on("click", PHOTO_MARKER_LAYER_ID, ...)` handler applied
to the first hit feature: select the marker (its own point as center), open
the 360 viewer when `imageURL` is truthy, and clear the reverse-geocode
result. -/
def onPhotoMarkerClick (st : AppState) (f : Feature) : AppState :=
  let cp : Rat × Rat :=
    match f.geometry with
    | .point cs => (cs.headD 0, (cs.drop 1).headD 0)
    | .polygon _ => (0, 0)
  let st :=
    { st with
      selectedFeature := some
        { name := f.properties.name
          id := f.properties.id
          imageURL := f.properties.imageURL
          category := f.properties.category
          centerPoint := cp } }
  let st := if jsTruthy f.properties.imageURL then { st with view360Url := f.properties.imageURL } else st
  { st with reverseGeocodeInfo := none }

-- --- SEARCH HANDLER ---

/-- The synchronous part of `handleSearch` (form submit): clear the error
and the suggestions; unless the map is missing or the trimmed query is
empty, fire `fetchCoordinates(searchQuery.trim(), 1)`. The fired request is
returned as `some (trimmedQuery, limit)`. -/
def handleSearch (mapExists : Bool) (st : AppState) : AppState × Option (String × Nat) :=
  let st := { st with searchError := none, searchSuggestions := [] }
  if ¬ mapExists ∨ jsTrim st.searchQuery = "" then
    (st, none)
  else
    (st, some (jsTrim st.searchQuery, 1))

-- --- RESET HANDLER ---

/-- The `resetMapView` callback (sans camera movement): clear every
interaction state back to its initial value; the search query and the
search error are not touched. -/
def resetMapView (st : AppState) : AppState :=
  { st with
    routePoints := []
    collectedCoordinates := []
    loggedClicks := []
    route := none
    selectedFeature := none
    view360Url := none
    isCoordinateFormOpen := false
    activeCategory := "All"
    searchSuggestions := []
    reverseGeocodeInfo := none }

-- --- API FUNCTIONS ---

/-- Outcome of an HTTP request: a payload, or a thrown/rejected error
(`catch` branch). -/
inductive NetResult (α : Type) where
  | ok (data : α)
  | err
deriving DecidableEq, Repr

/-- One raw forward-geocoding result row. -/
structure NominatimResult where
  display_name : String
  lon : Rat
  lat : Rat
  osmType : String
deriving DecidableEq, Repr

/-- `fetchCoordinates(query, limit)` against a service interaction whose
outcome is `net`: suggestion-sized requests (`limit > 1`) with a query
shorter than 3 characters are answered `[]` without any request; a failed
request yields `[]`; otherwise each row maps to a suggestion whose zoom is
12 for city/administrative results and 14 otherwise. -/
def fetchCoordinates (query : String) (limit : Nat) (net : NetResult (List NominatimResult)) :
    List Suggestion :=
  if limit > 1 ∧ query.length < 3 then
    []
  else
    match net with
    | .err => []
    | .ok data =>
      if data.length > 0 then
        data.map fun r =>
          { name := r.display_name
            lng := r.lon
            lat := r.lat
            zoom := if r.osmType = "city" ∨ r.osmType = "administrative" then 12 else 14 }
      else
        []

/-- The `address` object of a reverse-geocoding response (`postcode` may be
absent). -/
structure NominatimAddress where
  postcode : Option String
deriving DecidableEq, Repr

/-- The body of a reverse-geocoding response (`address` and `display_name`
may be absent). -/
structure ReverseData where
  address : Option NominatimAddress
  display_name : Option String
deriving DecidableEq, Repr

/-- `fetchPincodeAndAddress(lat, lng)` against a service interaction whose
outcome is `net`: with an address object, pincode defaults to `"N/A"` and
the display name to `"Address Not Found"`; without one, the
`"No Address Data Found"` sentinel is returned; a failed request yields the
`"Error"` / `"Service Error"` sentinels. The input coordinates are echoed
back with `toFixed(6)` in every branch. -/
def fetchPincodeAndAddress (lat lng : Rat) (net : NetResult (Option ReverseData)) :
    ReverseGeocodeInfo :=
  match net with
  | .err =>
    { pincode := "Error"
      latitude := toFixed lat 6
      longitude := toFixed lng 6
      fullAddress := "Service Error" }
  | .ok data =>
    match data with
    | some d =>
      match d.address with
      | some address =>
        { pincode := jsOr address.postcode "N/A"
          latitude := toFixed lat 6
          longitude := toFixed lng 6
          fullAddress := jsOr d.display_name "Address Not Found" }
      | none =>
        { pincode := "N/A"
          latitude := toFixed lat 6
          longitude := toFixed lng 6
          fullAddress := "No Address Data Found" }
    | none =>
      { pincode := "N/A"
        latitude := toFixed lat 6
        longitude := toFixed lng 6
        fullAddress := "No Address Data Found" }

-- --- CATEGORY FILTERING EFFECT ---

/-- Map layer filter expressions as used by the category effect
(`["all", f, g]` is the two-conjunct form the effect builds). -/
inductive LayerFilter where
  | has (prop : String)
  | eq (prop : String) (value : String)
  | all (f g : LayerFilter)
deriving DecidableEq, Repr

/-- The paint/filter settings the category effect pushes to the two layers
(`buildingFilter = none` models `setFilter(..., null)`). -/
structure CategoryLayerSettings where
  buildingColor : String
  buildingFilter : Option LayerFilter
  photoFilter : LayerFilter
deriving DecidableEq, Repr

/-- The category filtering effect body (both layers present): `"All"`
restores the gold color and clears the building filter; any other category
switches the color to purple and filters both layers on
`["==", ["get", "category"], activeCategory]` (conjoined with the
`["has", "imageURL"]` base filter on the photo-marker layer). -/
def categoryEffect (activeCategory : String) : CategoryLayerSettings :=
  let extrusionColor := if activeCategory = "All" then COLOR_GOLD else COLOR_PURPLE
  { buildingColor := extrusionColor
    buildingFilter :=
      if activeCategory = "All" then none
      else some (.eq "category" activeCategory)
    photoFilter :=
      if activeCategory = "All" then .has "imageURL"
      else .all (.has "imageURL") (.eq "category" activeCategory) }

-- --- THE "load" HANDLER ---

/-- The registered sources (name and GeoJSON contents) and layers (layer id
paired with the source id it draws from) of the map style. -/
structure MapStyleState where
  sources : List (String × FeatureCollection)
  layers : List (String × String)
deriving DecidableEq, Repr

/-- `cleanupLayersAndSources(id)`: remove the layer and the source named
`id` when present. -/
def cleanupLayersAndSources (st : MapStyleState) (id : String) : MapStyleState :=
  { layers := st.layers.filter fun l => l.1 ≠ id
    sources := st.sources.filter fun s => s.1 ≠ id }

/-- `map.addSource(id, {data})`. -/
def addSource (st : MapStyleState) (id : String) (data : FeatureCollection) : MapStyleState :=
  { st with sources := st.sources ++ [(id, data)] }

/-- `map.addLayer({id, source})`. -/
def addLayer (st : MapStyleState) (id src : String) : MapStyleState :=
  { st with layers := st.layers ++ [(id, src)] }

/-- The empty `{type: "FeatureCollection", features: []}` placeholder. -/
def emptyFC : FeatureCollection := { features := [] }

/-- The module-level string constants declared at the top of
`MapComponent.jsx`, used to resolve identifier references occurring inside
the `"load"` handler. -/
def moduleStringConsts : List (String × String) :=
  [("ROUTE_POINT_SOURCE_ID", ROUTE_POINT_SOURCE_ID),
   ("ROUTE_POINT_LAYER_ID", ROUTE_POINT_LAYER_ID),
   ("BOX_SOURCE_ID", BOX_SOURCE_ID),
   ("BOX_LAYER_ID", BOX_LAYER_ID),
   ("CLICKED_POINTS_SOURCE_ID", CLICKED_POINTS_SOURCE_ID),
   ("COLLECTED_COORDS_SOURCE_ID", COLLECTED_COORDS_SOURCE_ID),
   ("COLLECTED_COORDS_LAYER_ID", COLLECTED_COORDS_LAYER_ID),
   ("BUILDING_LAYER_ID", BUILDING_LAYER_ID),
   ("PHOTO_MARKER_LAYER_ID", PHOTO_MARKER_LAYER_ID)]

/-- Evaluation of a module-level identifier inside the component: an
identifier that is not declared evaluates to a `ReferenceError`, aborting
the surrounding handler (this is how JavaScript treats a read of an
undeclared name). -/
def jsIdent (name : String) : Except String String :=
  match moduleStringConsts.lookup name with
  | some v => Except.ok v
  | none => Except.error ("ReferenceError: " ++ name ++ " is not defined")

/-- Marker placement fallback when no `viewpoint.coordinates` override is
present: the centroid of the first polygon ring when the geometry is a
non-empty polygon, else the `[0, 0]` origin fallback. -/
def fallbackCoords (feature : Feature) : List Rat :=
  match feature.geometry with
  | .polygon rings =>
    if rings.length > 0 then
      let c := ringCentroid (rings.headD [])
      [c.1, c.2]
    else
      [0, 0]
  | .point _ => [0, 0]

/-- The derived viewpoint-marker FeatureCollection built inside the `"load"`
handler: per feature, the `viewpoint.coordinates` override when present,
else `fallbackCoords`; properties are copied. -/
def viewpointMarkers (buildings : FeatureCollection) : FeatureCollection :=
  { features := buildings.features.map fun feature =>
      let pointCoords : List Rat :=
        match feature.properties.viewpoint with
        | some vp =>
          match vp.coordinates with
          | some cs => cs
          | none => fallbackCoords feature
        | none => fallbackCoords feature
      { geometry := .point pointCoords
        properties := feature.properties } }

/-- The `map.current.on("load", ...)` handler up to the point where the
selection-box layer is added: cleanup, the six `addSource` calls, and the
`addLayer` calls in source order. The `addLayer` for `BOX_LAYER_ID` names
its source through the identifier `BOX_SOURCE_SOURCE_ID`, which is not
declared anywhere in the module, so evaluating it raises a `ReferenceError`
and the rest of the handler (the clicked-points layer, the marker-icon
loading, and the feature click-handler registrations) never runs. The
result is the style state reached when the handler stops, paired with the
raised error (if any). -/
def onLoad (init : MapStyleState) (buildings : FeatureCollection) :
    MapStyleState × Option String :=
  let st := [BUILDING_LAYER_ID, "buildings", "viewpoint-markers", "viewpoint-source",
             "route-line", "route-source", ROUTE_POINT_LAYER_ID, ROUTE_POINT_SOURCE_ID,
             BOX_LAYER_ID, BOX_SOURCE_ID, "clicked-points-layer", CLICKED_POINTS_SOURCE_ID,
             COLLECTED_COORDS_LAYER_ID, COLLECTED_COORDS_SOURCE_ID].foldl
    cleanupLayersAndSources init
  let vm := viewpointMarkers buildings
  let st := addSource st "buildings" buildings
  let st := addSource st "viewpoint-source" vm
  let st := addSource st ROUTE_POINT_SOURCE_ID emptyFC
  let st := addSource st BOX_SOURCE_ID emptyFC
  let st := addSource st CLICKED_POINTS_SOURCE_ID emptyFC
  let st := addSource st COLLECTED_COORDS_SOURCE_ID emptyFC
  let st := addLayer st BUILDING_LAYER_ID "buildings"
  let st := addLayer st ROUTE_POINT_LAYER_ID ROUTE_POINT_SOURCE_ID
  match jsIdent "BOX_SOURCE_SOURCE_ID" with
  | Except.error msg => (st, some msg)
  | Except.ok boxSrc =>
    let st := addLayer st BOX_LAYER_ID boxSrc
    let st := addLayer st "clicked-points-layer" CLICKED_POINTS_SOURCE_ID
    (st, none)

-- --- CONCRETE FIXTURES USED BY CLOSED THEOREMS ---

/-- A live reverse-geocode result, as state before a counterexample run. -/
def sampleReverseInfo : ReverseGeocodeInfo :=
  { pincode := "530017"
    latitude := "17.720000"
    longitude := "83.230000"
    fullAddress := "Beach Road, Visakhapatnam" }

/-- A photo-marker feature carrying an image reference. -/
def sampleMarker : Feature :=
  { geometry := .point [83.23, 17.72]
    properties :=
      { name := some "Camera 1"
        id := some "m1"
        imageURL := some "https://example.com/pano.jpg"
        category := some "Building" } }

/-- The `routePoints` / `route` values at the render in which the map was
created: `routePoints` starts as `[]` and can only be mutated through map
handlers, and no route can have been requested before the map exists. -/
def mountCaptured : CapturedRouteState :=
  { routePoints := [], route := none }

/-- State at the moment of a background left click while a route and a route
point are live. -/
def staleClickState : AppState :=
  { initialState with routePoints := [{ lng := 83.2, lat := 17.7 }], route := some {} }

/-- A primary-button click on a point where no feature-bearing layer is hit. -/
def bgClick : ClickEvent :=
  { lng := 83.2, lat := 17.7, button := 0, renderedLayerIds := [] }

/-- A collected-coordinates buffer already at capacity. -/
def fullBuffer : List CollectedPoint :=
  List.replicate MAX_COLLECTED_POINTS { lng := "0.000000", lat := "0.000000" }

/-- State whose collection buffer is at capacity. -/
def fullState : AppState :=
  { initialState with collectedCoordinates := fullBuffer }

/-- A fresh map style (a newly constructed map carries none of the
component-owned sources or layers). -/
def emptyStyle : MapStyleState :=
  { sources := [], layers := [] }

-- --- HELPER LEMMAS ---

/-- The scaled-and-rounded value behind `toFixed 17.72 6`. -/
theorem floor_17_72_scaled : ((17.72 : Rat) * (10 : Rat) ^ 6 + 1 / 2).floor = 17720000 := by
  have h : ((17.72 : Rat) * (10 : Rat) ^ 6 + 1 / 2) = 35440001 / 2 := by norm_num
  rw [h, Rat.floor_def']
  norm_num

/-- The scaled-and-rounded value behind `toFixed 83.23 6`. -/
theorem floor_83_23_scaled : ((83.23 : Rat) * (10 : Rat) ^ 6 + 1 / 2).floor = 83230000 := by
  have h : ((83.23 : Rat) * (10 : Rat) ^ 6 + 1 / 2) = 166460001 / 2 := by norm_num
  rw [h, Rat.floor_def']
  norm_num

/-- `toFixed 17.72 6` evaluates to the string the spec example names. -/
theorem toFixed_17_72 : toFixed (17.72 : Rat) 6 = "17.720000" := by
  simp only [toFixed]
  rw [floor_17_72_scaled]
  decide

/-- `toFixed 83.23 6` evaluates to the string the spec example names. -/
theorem toFixed_83_23 : toFixed (83.23 : Rat) 6 = "83.230000" := by
  simp only [toFixed]
  rw [floor_83_23_scaled]
  decide

/-- Every mousedown rewrites the logged-click buffer to exactly the current
click (with `MAX_LOGGED_CLICKS = 1`, the retained tail is empty). -/
theorem mousedownStep_loggedClicks (st : AppState) (e : MouseEvent) :
    (mousedownStep st e).loggedClicks = [loggedClickOf e] := by
  simp only [mousedownStep, MAX_LOGGED_CLICKS, Nat.sub_self, List.take_zero]
  split <;> rfl

/-- One mousedown preserves the collection-buffer capacity bound. -/
theorem mousedownStep_collected_le (st : AppState) (e : MouseEvent)
    (h : st.collectedCoordinates.length ≤ MAX_COLLECTED_POINTS) :
    (mousedownStep st e).collectedCoordinates.length ≤ MAX_COLLECTED_POINTS := by
  simp only [mousedownStep]
  split
  · split
    · exact h
    · rename_i hlt
      simp only [List.length_append, List.length_cons, List.length_nil]
      omega
  · exact h

/-- Any mousedown sequence preserves the collection-buffer capacity bound. -/
theorem foldl_mousedown_collected_le (evs : List MouseEvent) (st : AppState)
    (h : st.collectedCoordinates.length ≤ MAX_COLLECTED_POINTS) :
    ((evs.foldl mousedownStep st).collectedCoordinates).length ≤ MAX_COLLECTED_POINTS := by
  induction evs generalizing st with
  | nil => exact h
  | cons e evs ih => exact ih _ (mousedownStep_collected_le st e h)

/-- Any mousedown sequence keeps the logged-click buffer within its capacity. -/
theorem foldl_mousedown_logged_le (evs : List MouseEvent) (st : AppState)
    (h : st.loggedClicks.length ≤ MAX_LOGGED_CLICKS) :
    ((evs.foldl mousedownStep st).loggedClicks).length ≤ MAX_LOGGED_CLICKS := by
  induction evs generalizing st with
  | nil => exact h
  | cons e evs ih =>
    refine ih _ ?_
    rw [mousedownStep_loggedClicks]
    simp [MAX_LOGGED_CLICKS]

-- --- CLAIM THEOREMS ---

/-- C1: evaluation of the "load" handler on a fresh style and a non-null
(empty) building FeatureCollection. The handler does NOT run to completion:
after the six sources and the first two layers are registered, the
`addLayer` for the selection-box layer reads the undeclared identifier
`BOX_SOURCE_SOURCE_ID` and raises a `ReferenceError`, so the selection-box
fill layer and the clicked-points circle layer are never registered. -/
theorem load_setup_raises_reference_error :
    (onLoad emptyStyle emptyFC).2 = some "ReferenceError: BOX_SOURCE_SOURCE_ID is not defined" ∧
    (onLoad emptyStyle emptyFC).1.sources.map Prod.fst =
      ["buildings", "viewpoint-source", ROUTE_POINT_SOURCE_ID, BOX_SOURCE_ID,
       CLICKED_POINTS_SOURCE_ID, COLLECTED_COORDS_SOURCE_ID] ∧
    (onLoad emptyStyle emptyFC).1.layers.map Prod.fst =
      [BUILDING_LAYER_ID, ROUTE_POINT_LAYER_ID] := by
  refine ⟨rfl, rfl, rfl⟩

/-- C4: the collected-coordinates buffer never exceeds
`MAX_COLLECTED_POINTS = 155` entries under any sequence of mouse presses
from the initial state, and a collection attempt made while the buffer is
already at capacity leaves the buffer unchanged. -/
theorem collected_buffer_bounded :
    (∀ evs : List MouseEvent,
      ((evs.foldl mousedownStep initialState).collectedCoordinates).length ≤ MAX_COLLECTED_POINTS) ∧
    (∀ st : AppState, ∀ e : MouseEvent,
      st.collectedCoordinates.length = MAX_COLLECTED_POINTS →
      (mousedownStep st e).collectedCoordinates = st.collectedCoordinates) := by
  constructor
  · intro evs
    exact foldl_mousedown_collected_le evs initialState (by simp [initialState])
  · intro st e h
    simp only [mousedownStep]
    split
    · split
      · rfl
      · rename_i hlt
        exact absurd (le_of_eq h.symm) hlt
    · rfl

/-- Witness for C4: at a concrete full buffer, a right-click collection
attempt is a no-op on the buffer. -/
theorem collected_buffer_bounded_witness :
    fullState.collectedCoordinates.length = MAX_COLLECTED_POINTS ∧
    (mousedownStep fullState { lng := 83.2, lat := 17.7, button := 2 }).collectedCoordinates =
      fullState.collectedCoordinates :=
  ⟨by simp [fullState, fullBuffer],
   collected_buffer_bounded.2 fullState { lng := 83.2, lat := 17.7, button := 2 }
     (by simp [fullState, fullBuffer])⟩

/-- C5: after any sequence of mousedown events from the initial state the
logged-clicks buffer holds at most `MAX_LOGGED_CLICKS = 1` entry, and after
any sequence ending in event `e` it holds exactly the record of `e` (its
`toFixed(4)` coordinates and its button classification). -/
theorem logged_clicks_single_most_recent :
    (∀ evs : List MouseEvent,
      ((evs.foldl mousedownStep initialState).loggedClicks).length ≤ MAX_LOGGED_CLICKS) ∧
    (∀ evs : List MouseEvent, ∀ e : MouseEvent,
      (((evs ++ [e]).foldl mousedownStep initialState).loggedClicks) = [loggedClickOf e]) := by
  constructor
  · intro evs
    exact foldl_mousedown_logged_le evs initialState (by simp [initialState])
  · intro evs e
    rw [List.foldl_append]
    simp [mousedownStep_loggedClicks]

/-- C8: both geocoding paths swallow network failures at the call site: a
failed forward search evaluates to the empty suggestion list, and a failed
reverse lookup evaluates to the `"Error"` / `"Service Error"` sentinels with
the input coordinates echoed back via `toFixed(6)`. -/
theorem network_failures_swallowed :
    (∀ (query : String) (limit : Nat), fetchCoordinates query limit .err = []) ∧
    (∀ lat lng : Rat,
      fetchPincodeAndAddress lat lng .err =
        { pincode := "Error"
          latitude := toFixed lat 6
          longitude := toFixed lng 6
          fullAddress := "Service Error" }) := by
  constructor
  · intro query limit
    simp only [fetchCoordinates]
    split <;> rfl
  · intro lat lng
    rfl

/-- C9: a reverse-geocode call with `lat 17.72`, `lng 83.23` against a
service response with no address object returns exactly the
`"N/A"` / `"No Address Data Found"` record with the coordinates formatted
to 6 decimal places. -/
theorem reverse_geocode_no_address_sentinel :
    fetchPincodeAndAddress 17.72 83.23 (.ok (some { address := none, display_name := none })) =
      { pincode := "N/A"
        latitude := "17.720000"
        longitude := "83.230000"
        fullAddress := "No Address Data Found" } := by
  show ({ pincode := "N/A"
          latitude := toFixed 17.72 6
          longitude := toFixed 83.23 6
          fullAddress := "No Address Data Found" } : ReverseGeocodeInfo) = _
  rw [toFixed_17_72, toFixed_83_23]

/-- C10: `resetMapView` empties every interaction state (route points,
collected coordinates, logged clicks, route, selected feature, 360-view
URL, coordinate form, search suggestions, reverse-geocode result), returns
the active category to `"All"`, and leaves the search query text and the
search error message unchanged. -/
theorem reset_clears_interactions_preserves_search (st : AppState) :
    (resetMapView st).routePoints = [] ∧
    (resetMapView st).collectedCoordinates = [] ∧
    (resetMapView st).loggedClicks = [] ∧
    (resetMapView st).route = none ∧
    (resetMapView st).selectedFeature = none ∧
    (resetMapView st).view360Url = none ∧
    (resetMapView st).isCoordinateFormOpen = false ∧
    (resetMapView st).activeCategory = "All" ∧
    (resetMapView st).searchSuggestions = [] ∧
    (resetMapView st).reverseGeocodeInfo = none ∧
    (resetMapView st).searchQuery = st.searchQuery ∧
    (resetMapView st).searchError = st.searchError :=
  ⟨rfl, rfl, rfl, rfl, rfl, rfl, rfl, rfl, rfl, rfl, rfl, rfl⟩

/-- C2 counterexample: with a live reverse-geocode result, the
secondary-button marker promotion (the "contextmenu" handler) sets the
selected feature yet leaves the reverse-geocode result in place, so the
claimed mutual exclusivity fails for that operation. -/
theorem contextmenu_promotion_keeps_reverse_geocode :
    ((onContextMenu { initialState with reverseGeocodeInfo := some sampleReverseInfo }
        [sampleMarker] 83.23 17.72).selectedFeature).isSome = true ∧
    (onContextMenu { initialState with reverseGeocodeInfo := some sampleReverseInfo }
        [sampleMarker] 83.23 17.72).reverseGeocodeInfo = some sampleReverseInfo :=
  ⟨rfl, rfl⟩

/-- C2 (amended): the building-layer click and the photo-marker click clear
any active reverse-geocode result when they set the selected feature, and
every operation that starts a reverse geocode clears the selected feature;
the secondary-button marker promotion, however, leaves the reverse-geocode
result unchanged. -/
theorem feature_selection_reverse_geocode_exclusivity :
    (∀ (st : AppState) (f : Feature), (onBuildingClick st f).reverseGeocodeInfo = none) ∧
    (∀ (st : AppState) (f : Feature), (onPhotoMarkerClick st f).reverseGeocodeInfo = none) ∧
    (∀ (cap : CapturedRouteState) (st : AppState) (e : ClickEvent),
      (onMapClick cap st e).2.isSome = true → (onMapClick cap st e).1.selectedFeature = none) ∧
    (∀ (st : AppState) (fs : List Feature) (lng lat : Rat),
      (onContextMenu st fs lng lat).reverseGeocodeInfo = st.reverseGeocodeInfo) := by
  refine ⟨fun st f => rfl, fun st f => rfl, fun cap st e h => ?_, fun st fs lng lat => ?_⟩
  · by_cases hb : e.button ≠ 0
    · simp [onMapClick, hb] at h
    · by_cases hf : isFeatureClicked e
      · simp [onMapClick, hb, hf] at h
      · simp [onMapClick, hb, hf]
  · cases fs with
    | nil => rfl
    | cons f rest =>
      simp only [onContextMenu]
      split <;> rfl

/-- Witness for C2 (amended): a concrete background left click fires a
reverse geocode and the resulting state has no selected feature. -/
theorem feature_selection_reverse_geocode_exclusivity_witness :
    (onMapClick mountCaptured initialState bgClick).2.isSome = true ∧
    (onMapClick mountCaptured initialState bgClick).1.selectedFeature = none :=
  ⟨rfl, feature_selection_reverse_geocode_exclusivity.2.2.1 mountCaptured initialState bgClick rfl⟩

/-- C3: evaluation of the "click" handler at a background click taken while
a route point and a route are live. The route-clearing guard reads the
`routePoints` / `route` captured when the map-initialization effect ran
(both empty), so the current route point list and route are NOT cleared —
contradicting the claim — while the selection, the 360 view and the
suggestions are cleared and the reverse-geocode request is fired. -/
theorem stale_click_leaves_route_uncleared :
    staleClickState.routePoints.length = 1 ∧
    staleClickState.route.isSome = true ∧
    (onMapClick mountCaptured staleClickState bgClick).1.routePoints = staleClickState.routePoints ∧
    (onMapClick mountCaptured staleClickState bgClick).1.route = staleClickState.route ∧
    (onMapClick mountCaptured staleClickState bgClick).1.selectedFeature = none ∧
    (onMapClick mountCaptured staleClickState bgClick).1.view360Url = none ∧
    (onMapClick mountCaptured staleClickState bgClick).1.searchSuggestions = [] ∧
    (onMapClick mountCaptured staleClickState bgClick).2 = some (83.2, 17.7) :=
  ⟨rfl, rfl, rfl, rfl, rfl, rfl, rfl, rfl⟩

/-- C6 counterexample: a manual submit whose query is whitespace-only (in
particular, shorter than 3 characters once trimmed) issues no lookup at
all, refuting "for every query string". -/
theorem blank_manual_submit_issues_no_lookup :
    (handleSearch true { initialState with searchQuery := "   " }).2 = none :=
  rfl

/-- C6 (amended): a manual submit with the map initialized issues an
immediate forward lookup with result limit 1 for the trimmed query whenever
the trimmed query is nonempty — regardless of its length — while a blank
(empty or whitespace-only) query issues no lookup. -/
theorem manual_submit_nonblank_issues_limit_one (st : AppState)
    (h : jsTrim st.searchQuery ≠ "") :
    (handleSearch true st).2 = some (jsTrim st.searchQuery, 1) := by
  simp [handleSearch, h]

/-- Witness for C6 (amended): the two-character query "ab" (below the
3-character suggestion threshold) still gets an immediate limit-1 lookup on
manual submit. -/
theorem manual_submit_nonblank_issues_limit_one_witness :
    jsTrim ("ab" : String) ≠ "" ∧
    (handleSearch true { initialState with searchQuery := "ab" }).2 = some (jsTrim "ab", 1) :=
  ⟨by decide, manual_submit_nonblank_issues_limit_one { initialState with searchQuery := "ab" } (by decide)⟩

/-- C7: setting the active category to "All" restores the default gold
building color and clears the building-layer filter (the photo-marker layer
keeps its base image filter), and setting it to any other enumerated
category applies the equality filter on the feature category to both the
building layer and the photo-marker layer (conjoined with the image filter
on the latter). -/
theorem category_filter_projection :
    ((categoryEffect "All").buildingColor = COLOR_GOLD ∧
     (categoryEffect "All").buildingFilter = none ∧
     (categoryEffect "All").photoFilter = LayerFilter.has "imageURL") ∧
    (∀ c : String, c ∈ CATEGORY_OPTIONS → c ≠ "All" →
      (categoryEffect c).buildingColor = COLOR_PURPLE ∧
      (categoryEffect c).buildingFilter = some (LayerFilter.eq "category" c) ∧
      (categoryEffect c).photoFilter =
        LayerFilter.all (LayerFilter.has "imageURL") (LayerFilter.eq "category" c)) := by
  refine ⟨⟨rfl, rfl, rfl⟩, fun c _ hne => ?_⟩
  refine ⟨?_, ?_, ?_⟩ <;> simp [categoryEffect, hne]

/-- Witness for C7: the enumerated category "Building" gets the equality
filter on both layers. -/
theorem category_filter_projection_witness :
    ("Building" ∈ CATEGORY_OPTIONS ∧ "Building" ≠ "All") ∧
    (categoryEffect "Building").buildingFilter = some (LayerFilter.eq "category" "Building") ∧
    (categoryEffect "Building").photoFilter =
      LayerFilter.all (LayerFilter.has "imageURL") (LayerFilter.eq "category" "Building") :=
  ⟨⟨by decide, by decide⟩,
   (category_filter_projection.2 "Building" (by decide) (by decide)).2.1,
   (category_filter_projection.2 "Building" (by decide) (by decide)).2.2⟩
